import Mathlib

/-!
Verification of the syndicated-loan portfolio manager
(`app/models.py`, `app/loan_manager.py`).

Money amounts are modelled as exact rationals (`ℚ`); the Python source
uses floats, and the properties below are the exact-arithmetic laws the
spec states (rounding tolerances collapse to exact equalities over `ℚ`).

The database session is modelled as explicit state passing.  All of the
verified operations act on a single loan together with its related rows,
so the state is one `Loan` plus its lists of syndicate portions and
payments (`LoanState`); the portfolio-level report takes a list of such
states.  Fields of the ORM models that none of the verified operations
read (surrogate ids, borrower relationship, purpose, risk rating,
covenants) are elided, as is the `days_to_maturity` metric, which reads
the wall clock.  Fallible operations return `Except Err`; the source
raises `ValueError` for every validation failure, which the spec calls
`ValidationError`.
-/

/-- Calendar date, as Python's `datetime.date` (year, month 1..12, day 1..31). -/
structure Date where
  year : Nat
  month : Nat
  day : Nat
deriving DecidableEq, Repr

/-- `LoanStatus` enum from `app/models.py`. -/
inductive LoanStatus where
  | PENDING
  | ACTIVE
  | PAID_OFF
  | DEFAULT
  | RESTRUCTURED
deriving DecidableEq, Repr

/-- Error outcomes of the manager's fallible operations.  The source raises
`ValueError` both for missing loans and for business-rule violations; the spec
names the latter `ValidationError`.  `zeroDivision` models Python's
`ZeroDivisionError`. -/
inductive Err where
  | notFound
  | validationError
  | zeroDivision
deriving DecidableEq, Repr

/-- The `loans` row (`app/models.py`, class `Loan`): the columns the verified
operations read. -/
structure Loan where
  loan_number : String
  amount : ℚ
  origination_date : Date
  maturity_date : Date
  interest_rate : ℚ
  status : LoanStatus
deriving DecidableEq, Repr

/-- A `syndicate_portions` row (`app/models.py`, class `SyndicatePortion`). -/
structure SyndicatePortion where
  participant_id : Nat
  amount : ℚ
  participation_date : Date
deriving DecidableEq, Repr

/-- A `payments` row (`app/models.py`, class `Payment`). -/
structure Payment where
  payment_date : Date
  principal_amount : ℚ
  interest_amount : ℚ
  fees_amount : ℚ
  is_scheduled : Bool
deriving DecidableEq, Repr

/-- One loan together with its related rows: the slice of database state the
per-loan operations of `LoanManager` touch. -/
structure LoanState where
  loan : Loan
  syndicate_portions : List SyndicatePortion
  payments : List Payment
deriving DecidableEq, Repr

/-- `Loan.total_syndicated` property (`app/models.py` lines 93-96):
sum of the amounts of the loan's syndicate portions. -/
def total_syndicated (s : LoanState) : ℚ :=
  (s.syndicate_portions.map SyndicatePortion.amount).sum

/-- `Loan.remaining_principal` property (`app/models.py` lines 98-103):
loan amount minus the principal of all non-scheduled (actual) payments. -/
def remaining_principal (s : LoanState) : ℚ :=
  s.loan.amount -
    ((s.payments.filter (fun p => !p.is_scheduled)).map Payment.principal_amount).sum

/-- `LoanManager.update_loan_status` (`app/loan_manager.py` lines 92-111):
sets the loan's status unconditionally. -/
def update_loan_status (s : LoanState) (new_status : LoanStatus) : LoanState :=
  { s with loan := { s.loan with status := new_status } }

/-- `LoanManager.add_syndicate_portion` (`app/loan_manager.py` lines 153-194):
rejects a portion that would push the syndicated total over the loan amount,
otherwise persists it. -/
def add_syndicate_portion (s : LoanState) (participant_id : Nat) (amount : ℚ)
    (participation_date : Date) : Except Err (LoanState × SyndicatePortion) :=
  if total_syndicated s + amount > s.loan.amount then
    .error .validationError
  else
    let portion : SyndicatePortion :=
      { participant_id := participant_id
        amount := amount
        participation_date := participation_date }
    .ok ({ s with syndicate_portions := s.syndicate_portions ++ [portion] }, portion)

/-- `LoanManager.register_payment` (`app/loan_manager.py` lines 234-285):
validates the amounts, persists an actual (non-scheduled) payment, and
auto-transitions the loan to `PAID_OFF` when the remaining principal after
recording is `≤ 0`. -/
def register_payment (s : LoanState) (payment_date : Date)
    (principal_amount interest_amount fees_amount : ℚ) :
    Except Err (LoanState × Payment) :=
  if principal_amount < 0 ∨ interest_amount < 0 ∨ fees_amount < 0 then
    .error .validationError
  else if principal_amount > remaining_principal s then
    .error .validationError
  else
    let payment : Payment :=
      { payment_date := payment_date
        principal_amount := principal_amount
        interest_amount := interest_amount
        fees_amount := fees_amount
        is_scheduled := false }
    let s1 : LoanState := { s with payments := s.payments ++ [payment] }
    let s2 : LoanState :=
      if remaining_principal s1 ≤ 0 then update_loan_status s1 .PAID_OFF else s1
    .ok (s2, payment)

/-- Leap-year test exactly as written inline in `LoanManager._add_months`. -/
def isLeapYear (y : Nat) : Bool :=
  y % 4 == 0 && (y % 100 != 0 || y % 400 == 0)

/-- The month-length table indexed in `LoanManager._add_months`. -/
def daysInMonth (y m : Nat) : Nat :=
  [31, if isLeapYear y then 29 else 28,
   31, 30, 31, 30, 31, 31, 30, 31, 30, 31].getD (m - 1) 0

/-- `LoanManager._add_months` (`app/loan_manager.py` lines 357-364): advance a
date by `months` months, clamping the day to the target month's length. -/
def add_months (d : Date) (months : Nat) : Date :=
  let m := d.month - 1 + months
  let year := d.year + m / 12
  let month := m % 12 + 1
  { year := year, month := month, day := min d.day (daysInMonth year month) }

/-- `months_to_maturity` as computed in `LoanManager.schedule_payments`
(lines 310-311): calendar-month difference, day-of-month ignored. -/
def months_to_maturity (maturity start : Date) : Int :=
  ((maturity.year : Int) - start.year) * 12 + (maturity.month : Int) - start.month

/-- The payment-generation loop of `LoanManager.schedule_payments`
(lines 327-351).  The first argument of the recursion is the number of
payments still to generate; the final one (`n = 1` here, `i == num_payments-1`
in the source) takes the whole remaining principal instead of the per-payment
share. -/
def scheduleLoop (rate : ℚ) (frequency_months : Nat) (principal_per_payment : ℚ) :
    Nat → ℚ → Date → List Payment
  | 0, _, _ => []
  | n + 1, remaining, d =>
    let principal_amount := if n = 0 then remaining else principal_per_payment
    { payment_date := d
      principal_amount := principal_amount
      interest_amount := remaining * rate / 12
      fees_amount := 0
      is_scheduled := true } ::
      scheduleLoop rate frequency_months principal_per_payment n
        (remaining - principal_amount) (add_months d frequency_months)

/-- The effective payment count of `LoanManager.schedule_payments` (lines
308-312): Python's `if not num_payments` treats both `None` and `0` as absent,
deriving the count from the whole months to maturity at the given frequency,
plus one. -/
def effective_num_payments (maturity start : Date) (frequency_months : Nat)
    (num_payments : Option Int) : Int :=
  if num_payments = none ∨ num_payments = some 0 then
    (months_to_maturity maturity start).fdiv frequency_months + 1
  else
    num_payments.getD 0

/-- `LoanManager.schedule_payments` (`app/loan_manager.py` lines 287-355).
Deriving the count with `frequency_months = 0`, or computing the per-payment
principal with a derived count of `0`, raises `ZeroDivisionError` in the
source (before any deletion), modelled as `.error .zeroDivision`.  Otherwise
all existing scheduled payments of the loan are deleted and the freshly
generated ones inserted. -/
def schedule_payments (s : LoanState) (start_date : Date) (frequency_months : Nat)
    (num_payments : Option Int) : Except Err (LoanState × List Payment) :=
  if (num_payments = none ∨ num_payments = some 0) ∧ frequency_months = 0 then
    .error .zeroDivision
  else
    let n : Int := effective_num_payments s.loan.maturity_date start_date
      frequency_months num_payments
    if n = 0 then
      .error .zeroDivision
    else
      let remaining := remaining_principal s
      let principal_per_payment := remaining / (n : ℚ)
      let kept := s.payments.filter (fun p => !p.is_scheduled)
      let ps := scheduleLoop s.loan.interest_rate frequency_months
        principal_per_payment n.toNat remaining start_date
      .ok ({ s with payments := kept ++ ps }, ps)

/-- Shorthand for the payment list `schedule_payments` generates for a loan in
state `s` when the effective payment count is `n`: the `scheduleLoop` run from
the loan's remaining principal with per-payment share `remaining / n`. -/
def scheduled_for (s : LoanState) (start : Date) (f : Nat) (n : Nat) : List Payment :=
  scheduleLoop s.loan.interest_rate f (remaining_principal s / (n : ℚ)) n
    (remaining_principal s) start

/-- The per-portion entry of the dict returned by
`LoanManager.get_loan_syndication_status`. -/
structure PortionStatus where
  participant_id : Nat
  amount : ℚ
  percentage : ℚ
  participation_date : Date
deriving DecidableEq, Repr

/-- The dict returned by `LoanManager.get_loan_syndication_status`. -/
structure SyndicationStatus where
  loan_number : String
  total_amount : ℚ
  total_syndicated : ℚ
  remaining_to_syndicate : ℚ
  syndication_percentage : ℚ
  portions : List PortionStatus
deriving DecidableEq, Repr

/-- `LoanManager.get_loan_syndication_status` (`app/loan_manager.py`
lines 196-230): percentages guarded by `if loan.amount > 0 else 0`. -/
def get_loan_syndication_status (s : LoanState) : SyndicationStatus :=
  let ts := total_syndicated s
  { loan_number := s.loan.loan_number
    total_amount := s.loan.amount
    total_syndicated := ts
    remaining_to_syndicate := s.loan.amount - ts
    syndication_percentage := if s.loan.amount > 0 then ts / s.loan.amount * 100 else 0
    portions := s.syndicate_portions.map fun p =>
      { participant_id := p.participant_id
        amount := p.amount
        percentage := if s.loan.amount > 0 then p.amount / s.loan.amount * 100 else 0
        participation_date := p.participation_date } }

/-- The dict returned by `LoanManager.calculate_loan_metrics` (numeric and
status fields; `days_to_maturity` reads the wall clock and `borrower_name` a
relationship, both elided). -/
structure LoanMetrics where
  loan_number : String
  original_amount : ℚ
  remaining_principal : ℚ
  principal_paid : ℚ
  interest_paid : ℚ
  fees_paid : ℚ
  syndication_percentage : ℚ
  status : LoanStatus
deriving DecidableEq, Repr

/-- `LoanManager.calculate_loan_metrics` (`app/loan_manager.py` lines 404-446):
totals over the actual (non-scheduled) payments, remaining principal computed
inline as `loan.amount - total_principal_paid`. -/
def calculate_loan_metrics (s : LoanState) : LoanMetrics :=
  let actual_payments := s.payments.filter (fun p => !p.is_scheduled)
  let total_principal_paid := (actual_payments.map Payment.principal_amount).sum
  { loan_number := s.loan.loan_number
    original_amount := s.loan.amount
    remaining_principal := s.loan.amount - total_principal_paid
    principal_paid := total_principal_paid
    interest_paid := (actual_payments.map Payment.interest_amount).sum
    fees_paid := (actual_payments.map Payment.fees_amount).sum
    syndication_percentage :=
      if s.loan.amount > 0 then total_syndicated s / s.loan.amount * 100 else 0
    status := s.loan.status }

/-- The dict returned by `LoanManager.get_portfolio_overview` (summary fields;
the risk/industry breakdown dicts aggregate the same per-loan retained
exposures and are elided). -/
structure PortfolioOverview where
  total_portfolio_size : ℚ
  total_syndicated : ℚ
  retained_exposure : ℚ
  syndication_percentage : ℚ
  active_loans_count : Nat
deriving DecidableEq, Repr

/-- `LoanManager.get_portfolio_overview` (`app/loan_manager.py` lines 448-487):
aggregates over the loans with status `ACTIVE`; the percentage is guarded by
`if total_exposure > 0 else 0`. -/
def get_portfolio_overview (states : List LoanState) : PortfolioOverview :=
  let loans := states.filter (fun s => decide (s.loan.status = LoanStatus.ACTIVE))
  let total_exposure := (loans.map (fun s => s.loan.amount)).sum
  let ts := (loans.map total_syndicated).sum
  { total_portfolio_size := total_exposure
    total_syndicated := ts
    retained_exposure := total_exposure - ts
    syndication_percentage :=
      if total_exposure > 0 then ts / total_exposure * 100 else 0
    active_loans_count := loans.length }

/-! ### Concrete example states

Small concrete loans used to instantiate the verified properties. -/

/-- A 100-unit active loan with zero interest rate, no portions, no payments. -/
def exLoan : Loan :=
  { loan_number := "SL-001"
    amount := 100
    origination_date := { year := 2024, month := 1, day := 1 }
    maturity_date := { year := 2025, month := 1, day := 1 }
    interest_rate := 0
    status := .ACTIVE }

/-- Fresh state for `exLoan`. -/
def exState : LoanState :=
  { loan := exLoan, syndicate_portions := [], payments := [] }

/-- `exState` with one 40-unit syndicate portion. -/
def exSynState : LoanState :=
  { loan := exLoan
    syndicate_portions := [{ participant_id := 7, amount := 40,
                             participation_date := { year := 2024, month := 1, day := 15 } }]
    payments := [] }

/-- A loan whose face amount is `0`, used to exercise the percentage guards. -/
def exZeroState : LoanState :=
  { loan := { exLoan with loan_number := "SL-000", amount := 0 }
    syndicate_portions := [{ participant_id := 3, amount := 0,
                             participation_date := { year := 2024, month := 2, day := 1 } }]
    payments := [] }

/-- A 60-unit syndicate portion. -/
def exPortion60 : SyndicatePortion :=
  { participant_id := 1, amount := 60,
    participation_date := { year := 2024, month := 1, day := 10 } }

/-- `exState` after `exPortion60` is persisted. -/
def exSynState60 : LoanState :=
  { loan := exLoan, syndicate_portions := [exPortion60], payments := [] }

/-- A full-payoff payment of the whole 100-unit principal. -/
def exPaidPayment : Payment :=
  { payment_date := { year := 2024, month := 6, day := 1 }
    principal_amount := 100, interest_amount := 0, fees_amount := 0,
    is_scheduled := false }

/-- `exState` after registering `exPaidPayment`: principal exhausted, status
auto-set to `PAID_OFF`. -/
def exPaidState : LoanState :=
  { loan := { exLoan with status := .PAID_OFF }
    syndicate_portions := []
    payments := [exPaidPayment] }

/-- A 10-unit actual payment. -/
def exPay10 : Payment :=
  { payment_date := { year := 2024, month := 6, day := 1 }
    principal_amount := 10, interest_amount := 0, fees_amount := 0,
    is_scheduled := false }

/-- `exSynState` after registering `exPay10` (90 units still outstanding). -/
def exSynAfter : LoanState :=
  { loan := exLoan
    syndicate_portions := exSynState.syndicate_portions
    payments := [exPay10] }

/-- The single scheduled payment generated by a one-payment schedule of
`exState` starting 2024-03-01. -/
def exSched1 : Payment :=
  { payment_date := { year := 2024, month := 3, day := 1 }
    principal_amount := 100, interest_amount := 0, fees_amount := 0,
    is_scheduled := true }

/-- `exState` after that first scheduling call. -/
def exMidState : LoanState :=
  { loan := exLoan, syndicate_portions := [], payments := [exSched1] }

/-- First payment of a two-payment re-schedule starting 2024-04-01. -/
def exSched2a : Payment :=
  { payment_date := { year := 2024, month := 4, day := 1 }
    principal_amount := 50, interest_amount := 0, fees_amount := 0,
    is_scheduled := true }

/-- Second payment of that two-payment re-schedule. -/
def exSched2b : Payment :=
  { payment_date := { year := 2024, month := 5, day := 1 }
    principal_amount := 50, interest_amount := 0, fees_amount := 0,
    is_scheduled := true }

/-- `exMidState` after the second scheduling call: the first call's scheduled
payment is gone, replaced by the two new ones. -/
def exFinalState : LoanState :=
  { loan := exLoan, syndicate_portions := [], payments := [exSched2a, exSched2b] }

/-! ### Helper lemmas -/

theorem scheduleLoop_length (rate ppp : ℚ) (f : Nat) :
    ∀ (n : Nat) (rem : ℚ) (d : Date), (scheduleLoop rate f ppp n rem d).length = n := by
  intro n
  induction n with
  | zero => intro rem d; rfl
  | succ k ih => intro rem d; simp [scheduleLoop, ih]

theorem scheduleLoop_principal_amounts (rate ppp : ℚ) (f : Nat) :
    ∀ (n : Nat) (rem : ℚ) (d : Date),
      (scheduleLoop rate f ppp (n + 1) rem d).map Payment.principal_amount
        = List.replicate n ppp ++ [rem - n * ppp] := by
  intro n
  induction n with
  | zero => intro rem d; simp [scheduleLoop]
  | succ k ih =>
      intro rem d
      rw [scheduleLoop.eq_2]
      simp only [Nat.succ_ne_zero, if_false, List.map_cons, List.replicate_succ,
        List.cons_append, List.cons.injEq, ih]
      refine ⟨trivial, ?_⟩
      congr 2
      push_cast
      ring

theorem scheduleLoop_sum (rate ppp : ℚ) (f : Nat) (n : Nat) (rem : ℚ) (d : Date) :
    ((scheduleLoop rate f ppp (n + 1) rem d).map Payment.principal_amount).sum = rem := by
  rw [scheduleLoop_principal_amounts]
  simp [List.sum_replicate, nsmul_eq_mul]

theorem scheduleLoop_is_sched (rate ppp : ℚ) (f : Nat) :
    ∀ (n : Nat) (rem : ℚ) (d : Date) (p : Payment),
      p ∈ scheduleLoop rate f ppp n rem d → p.is_scheduled = true := by
  intro n
  induction n with
  | zero => intro rem d p hp; simp [scheduleLoop] at hp
  | succ k ih =>
      intro rem d p hp
      simp only [scheduleLoop, List.mem_cons] at hp
      rcases hp with rfl | hp
      · rfl
      · exact ih _ _ p hp

theorem schedule_payments_some_pos (s : LoanState) (start : Date) (f N : Nat)
    (hN : 1 ≤ N) :
    schedule_payments s start f (some (N : Int)) =
      .ok ({ s with payments :=
               s.payments.filter (fun p => !p.is_scheduled) ++ scheduled_for s start f N },
           scheduled_for s start f N) := by
  have hNz : (N : Int) ≠ 0 := by omega
  rw [schedule_payments]
  simp [hNz, effective_num_payments, scheduled_for, Int.toNat_natCast]

theorem schedule_payments_ok_payments (s : LoanState) (d : Date) (f : Nat)
    (k : Option Int) (s' : LoanState) (ps : List Payment)
    (h : schedule_payments s d f k = .ok (s', ps)) :
    s'.payments = s.payments.filter (fun p => !p.is_scheduled) ++ ps ∧
    ∀ p ∈ ps, p.is_scheduled = true := by
  rw [schedule_payments] at h
  split at h
  · exact absurd h (by simp)
  · dsimp only at h
    split at h
    · exact absurd h (by simp)
    · simp only [Except.ok.injEq, Prod.mk.injEq] at h
      obtain ⟨hs, hps⟩ := h
      subst hs
      subst hps
      exact ⟨rfl, fun p hp => scheduleLoop_is_sched _ _ _ _ _ _ p hp⟩

theorem remaining_principal_append_actual (s : LoanState) (pay : Payment)
    (hp : pay.is_scheduled = false) :
    remaining_principal { s with payments := s.payments ++ [pay] }
      = remaining_principal s - pay.principal_amount := by
  simp [remaining_principal, List.filter_append, hp]
  ring

theorem remaining_principal_update_status (s : LoanState) (st : LoanStatus) :
    remaining_principal (update_loan_status s st) = remaining_principal s := rfl

theorem total_syndicated_update_status (s : LoanState) (st : LoanStatus) :
    total_syndicated (update_loan_status s st) = total_syndicated s := rfl

/-! ### Claim theorems -/

/-- Claim C1: for every loan with remaining principal `R` and every
`schedule_payments(loan_id, start, freq, N)` with `N ≥ 1`, the generated
scheduled payments carry principal `R / N` in periods `1..N-1`, the final
period's principal is `R` minus the sum of all prior allocations, and the
principal amounts sum to exactly `R` (exact rational arithmetic). -/
theorem schedule_payments_amortization_sum (s : LoanState) (start : Date)
    (f N : Nat) (hN : 1 ≤ N) :
    ∃ s' ps, schedule_payments s start f (some (N : Int)) = .ok (s', ps) ∧
      ps.length = N ∧
      ps.map Payment.principal_amount =
        List.replicate (N - 1) (remaining_principal s / N) ++
          [remaining_principal s - (N - 1) * (remaining_principal s / N)] ∧
      (ps.map Payment.principal_amount).sum = remaining_principal s := by
  obtain ⟨k, rfl⟩ : ∃ k, N = k + 1 := ⟨N - 1, by omega⟩
  refine ⟨_, _, schedule_payments_some_pos s start f (k + 1) hN, ?_, ?_, ?_⟩
  · exact scheduleLoop_length _ _ _ _ _ _
  · rw [scheduled_for, scheduleLoop_principal_amounts]
    simp
  · rw [scheduled_for, scheduleLoop_sum]

/-- Claim C2: after every successful `add_syndicate_portion` call the loan
satisfies `total_syndicated ≤ amount`, and whenever the current syndicated
total plus the requested portion would exceed `loan.amount` the call fails
with a validation error and persists nothing. -/
theorem add_syndicate_portion_cap (s : LoanState) (pid : Nat) (a : ℚ) (d : Date) :
    (∀ s' portion, add_syndicate_portion s pid a d = .ok (s', portion) →
      total_syndicated s' ≤ s'.loan.amount) ∧
    (total_syndicated s + a > s.loan.amount →
      add_syndicate_portion s pid a d = .error .validationError) := by
  constructor
  · intro s' portion h
    rw [add_syndicate_portion] at h
    split at h
    next hgt => exact absurd h (by simp)
    next hgt =>
      push_neg at hgt
      simp only [Except.ok.injEq, Prod.mk.injEq] at h
      obtain ⟨hs, -⟩ := h
      subst hs
      simpa [total_syndicated] using hgt
  · intro hgt
    rw [add_syndicate_portion, if_pos hgt]

/-- Claim C3: `register_payment` with principal `P` satisfying
`0 ≤ P ≤ remaining_principal` (and non-negative interest and fees) succeeds
and decreases the loan's remaining principal by exactly `P`; if `P` exceeds
the remaining principal or any amount is negative, it fails with a validation
error and no state changes. -/
theorem register_payment_principal_spec (s : LoanState) (d : Date) (p i f : ℚ) :
    (0 ≤ p → p ≤ remaining_principal s → 0 ≤ i → 0 ≤ f →
      ∃ s' pay, register_payment s d p i f = .ok (s', pay) ∧
        remaining_principal s' = remaining_principal s - p) ∧
    ((remaining_principal s < p ∨ p < 0 ∨ i < 0 ∨ f < 0) →
      register_payment s d p i f = .error .validationError) := by
  constructor
  · intro hp hle hi hf
    rw [register_payment]
    rw [if_neg (by push_neg; exact ⟨hp, hi, hf⟩)]
    rw [if_neg (not_lt.mpr hle)]
    refine ⟨_, _, rfl, ?_⟩
    have key : remaining_principal
        { s with payments := s.payments ++
            [{ payment_date := d, principal_amount := p, interest_amount := i,
               fees_amount := f, is_scheduled := false }] }
        = remaining_principal s - p :=
      remaining_principal_append_actual s _ rfl
    split
    · rw [remaining_principal_update_status, key]
    · rw [key]
  · intro hbad
    rw [register_payment]
    rcases hbad with hb | hb | hb | hb
    · by_cases hneg : p < 0 ∨ i < 0 ∨ f < 0
      · rw [if_pos hneg]
      · rw [if_neg hneg, if_pos hb]
    · rw [if_pos (Or.inl hb)]
    · rw [if_pos (Or.inr (Or.inl hb))]
    · rw [if_pos (Or.inr (Or.inr hb))]

/-- Claim C10: the `remaining_principal` entry computed inline by
`calculate_loan_metrics` (original amount minus principal summed over actual
payments) always agrees with the `Loan.remaining_principal` derived
property. -/
theorem calculate_loan_metrics_remaining_agrees (s : LoanState) :
    (calculate_loan_metrics s).remaining_principal = remaining_principal s := rfl

/-- Claim C4 (counterexample): scheduling monthly from 2024-01-31 does clamp
the second date to 2024-02-29, but the third generated date is 2024-03-29,
not 2024-03-31 — `schedule_payments` advances each date from the previous
(already clamped) one, so the original day-of-month is never restored. -/
theorem schedule_dates_not_restored :
    ((schedule_payments exState ⟨2024, 1, 31⟩ 1 (some 3)).toOption.map
        (fun r => r.2.map Payment.payment_date))
      = some [⟨2024, 1, 31⟩, ⟨2024, 2, 29⟩, ⟨2024, 3, 29⟩] ∧
    ¬ ((schedule_payments exState ⟨2024, 1, 31⟩ 1 (some 3)).toOption.map
        (fun r => r.2.map Payment.payment_date))
      = some [⟨2024, 1, 31⟩, ⟨2024, 2, 29⟩, ⟨2024, 3, 31⟩] := by
  decide

/-- Claim C4 (amended): scheduling monthly from 2024-01-31 yields 2024-02-29
as the next payment date (leap-year-aware clamp to February's last day) and
2024-03-29 as the one after: each date is obtained by `_add_months` from the
previous payment date, so the clamped day persists in later months.  A single
`_add_months` step from 2024-03-31 would clamp to 2024-04-30. -/
theorem schedule_dates_clamp_persists :
    ((schedule_payments exState ⟨2024, 1, 31⟩ 1 (some 3)).toOption.map
        (fun r => r.2.map Payment.payment_date))
      = some [⟨2024, 1, 31⟩, ⟨2024, 2, 29⟩, ⟨2024, 3, 29⟩] ∧
    add_months ⟨2024, 1, 31⟩ 1 = ⟨2024, 2, 29⟩ ∧
    add_months ⟨2024, 2, 29⟩ 1 = ⟨2024, 3, 29⟩ ∧
    add_months ⟨2024, 3, 31⟩ 1 = ⟨2024, 4, 30⟩ := by
  decide

/-- Claim C5: after two successive `schedule_payments` calls on the same loan
the scheduled (`is_scheduled = true`) payments of the resulting state are
exactly those generated by the second call: the first call's scheduled
payments are wholly deleted, never merged. -/
theorem schedule_payments_replace (s s1 s2 : LoanState) (d1 d2 : Date)
    (f1 f2 : Nat) (k1 k2 : Option Int) (ps1 ps2 : List Payment)
    (h1 : schedule_payments s d1 f1 k1 = .ok (s1, ps1))
    (h2 : schedule_payments s1 d2 f2 k2 = .ok (s2, ps2)) :
    s2.payments.filter (fun p => p.is_scheduled) = ps2 := by
  obtain ⟨hpay, hsched⟩ := schedule_payments_ok_payments s1 d2 f2 k2 s2 ps2 h2
  rw [hpay, List.filter_append]
  have h0 : (s1.payments.filter (fun p => !p.is_scheduled)).filter
      (fun p => p.is_scheduled) = [] := by
    simp [List.filter_filter]
  have hself : ps2.filter (fun p => p.is_scheduled) = ps2 :=
    List.filter_eq_self.mpr (fun p hp => hsched p hp)
  rw [h0, hself, List.nil_append]

/-- Claim C6: whenever `register_payment` succeeds, the loan's status is set
to `PAID_OFF` exactly when the remaining principal after recording is `≤ 0`;
otherwise the status is left unchanged. -/
theorem register_payment_auto_paid_off (s s' : LoanState) (d : Date)
    (p i f : ℚ) (pay : Payment)
    (h : register_payment s d p i f = .ok (s', pay)) :
    (remaining_principal s' ≤ 0 → s'.loan.status = LoanStatus.PAID_OFF) ∧
    (¬ remaining_principal s' ≤ 0 → s'.loan.status = s.loan.status) := by
  rw [register_payment] at h
  split at h
  · exact absurd h (by simp)
  · split at h
    · exact absurd h (by simp)
    · simp only [Except.ok.injEq, Prod.mk.injEq] at h
      obtain ⟨hs, -⟩ := h
      split at hs
      next hc =>
        subst hs
        refine ⟨fun _ => rfl, fun hn => ?_⟩
        rw [remaining_principal_update_status] at hn
        exact absurd hc hn
      next hc =>
        subst hs
        exact ⟨fun hle => absurd hle hc, fun _ => rfl⟩

/-- Claim C7: a successful `register_payment` changes neither the loan's
syndicated total nor the syndication percentages reported by
`get_loan_syndication_status` and `calculate_loan_metrics`, nor the per-portion
percentage entries: those figures read only the loan amount and the syndicate
portions, which payment activity leaves untouched. -/
theorem register_payment_preserves_syndication (s s' : LoanState) (d : Date)
    (p i f : ℚ) (pay : Payment)
    (h : register_payment s d p i f = .ok (s', pay)) :
    total_syndicated s' = total_syndicated s ∧
    (get_loan_syndication_status s').syndication_percentage
      = (get_loan_syndication_status s).syndication_percentage ∧
    (get_loan_syndication_status s').portions
      = (get_loan_syndication_status s).portions ∧
    (calculate_loan_metrics s').syndication_percentage
      = (calculate_loan_metrics s).syndication_percentage := by
  have hkeep : s'.syndicate_portions = s.syndicate_portions ∧
      s'.loan.amount = s.loan.amount := by
    rw [register_payment] at h
    split at h
    · exact absurd h (by simp)
    · split at h
      · exact absurd h (by simp)
      · simp only [Except.ok.injEq, Prod.mk.injEq] at h
        obtain ⟨hs, -⟩ := h
        split at hs <;> subst hs <;> exact ⟨rfl, rfl⟩
  obtain ⟨hport, hamt⟩ := hkeep
  refine ⟨?_, ?_, ?_, ?_⟩
  · simp [total_syndicated, hport]
  · simp [get_loan_syndication_status, total_syndicated, hport, hamt]
  · simp [get_loan_syndication_status, hport, hamt]
  · simp [calculate_loan_metrics, total_syndicated, hport, hamt]

/-- Claim C8: when `num_payments` is omitted, `schedule_payments` generates
exactly `(whole months between start_date and maturity_date) div
frequency_months + 1` payments (for a scheduling start not after the maturity
month and a positive frequency, the domain in which the derived count is a
payment count). -/
theorem schedule_payments_derived_count (s : LoanState) (start : Date) (f : Nat)
    (hf : 1 ≤ f) (hm : 0 ≤ months_to_maturity s.loan.maturity_date start) :
    ∃ s' ps, schedule_payments s start f none = .ok (s', ps) ∧
      (ps.length : Int)
        = (months_to_maturity s.loan.maturity_date start).fdiv f + 1 := by
  have hdiv : 0 ≤ (months_to_maturity s.loan.maturity_date start).fdiv (f : Int) :=
    Int.fdiv_nonneg hm (by positivity)
  have heff : effective_num_payments s.loan.maturity_date start f none
      = (months_to_maturity s.loan.maturity_date start).fdiv f + 1 := by
    simp [effective_num_payments]
  rw [schedule_payments]
  rw [if_neg (fun hc => absurd hc.2 (by omega))]
  dsimp only
  rw [if_neg (by rw [heff]; omega)]
  refine ⟨_, _, rfl, ?_⟩
  rw [scheduleLoop_length, heff, Int.toNat_of_nonneg (by omega)]

/-- Claim C9: the syndication percentages of `get_loan_syndication_status`
and `get_portfolio_overview` are `0` — never an error or an undefined
value — whenever the relevant amount total (the loan's amount, or the total
active-loan exposure) is `0`, and the per-portion percentage entries are
likewise `0` when the loan amount is `0`: every division is guarded. -/
theorem syndication_percentage_zero_guard (s : LoanState)
    (states : List LoanState) (hs : s.loan.amount = 0)
    (hp : (get_portfolio_overview states).total_portfolio_size = 0) :
    (get_loan_syndication_status s).syndication_percentage = 0 ∧
    (∀ e ∈ (get_loan_syndication_status s).portions, e.percentage = 0) ∧
    (get_portfolio_overview states).syndication_percentage = 0 := by
  refine ⟨?_, ?_, ?_⟩
  · simp [get_loan_syndication_status, hs]
  · intro e he
    simp only [get_loan_syndication_status, List.mem_map] at he
    obtain ⟨q, -, rfl⟩ := he
    simp [hs]
  · simp only [get_portfolio_overview] at hp ⊢
    simp [hp]

/-! ### Witnesses -/

/-- Witness for C1: a three-payment schedule of the fresh 100-unit loan. -/
theorem schedule_payments_amortization_sum_witness :
    ∃ s' ps, schedule_payments exState ⟨2024, 2, 1⟩ 1 (some ((3 : Nat) : Int))
        = .ok (s', ps) ∧
      ps.length = 3 ∧
      ps.map Payment.principal_amount =
        List.replicate (3 - 1) (remaining_principal exState / ((3 : Nat) : ℚ)) ++
          [remaining_principal exState -
            (((3 : Nat) : ℚ) - 1) * (remaining_principal exState / ((3 : Nat) : ℚ))] ∧
      (ps.map Payment.principal_amount).sum = remaining_principal exState :=
  schedule_payments_amortization_sum exState ⟨2024, 2, 1⟩ 1 3 (by decide)

/-- Witness for C2: a 60-unit portion fits under the 100-unit cap and lands in
the state; a 200-unit portion is rejected. -/
theorem add_syndicate_portion_cap_witness :
    total_syndicated exSynState60 ≤ exSynState60.loan.amount ∧
    add_syndicate_portion exState 1 200 ⟨2024, 1, 10⟩ = .error .validationError := by
  constructor
  · exact (add_syndicate_portion_cap exState 1 60 ⟨2024, 1, 10⟩).1 exSynState60
      exPortion60
      (by norm_num [add_syndicate_portion, total_syndicated, exState, exLoan,
        exSynState60, exPortion60])
  · exact (add_syndicate_portion_cap exState 1 200 ⟨2024, 1, 10⟩).2
      (by norm_num [total_syndicated, exState, exLoan])

/-- Witness for C3: a 30-unit principal payment on the fresh 100-unit loan
succeeds and leaves 70 outstanding; a 200-unit one is rejected. -/
theorem register_payment_principal_spec_witness :
    (∃ s' pay, register_payment exState ⟨2024, 6, 1⟩ 30 1 2 = .ok (s', pay) ∧
      remaining_principal s' = remaining_principal exState - 30) ∧
    register_payment exState ⟨2024, 6, 1⟩ 200 0 0 = .error .validationError := by
  constructor
  · exact (register_payment_principal_spec exState ⟨2024, 6, 1⟩ 30 1 2).1
      (by norm_num) (by norm_num [remaining_principal, exState, exLoan])
      (by norm_num) (by norm_num)
  · exact (register_payment_principal_spec exState ⟨2024, 6, 1⟩ 200 0 0).2
      (Or.inl (by norm_num [remaining_principal, exState, exLoan]))

/-- Witness for C5: re-scheduling `exState` (one payment, then two payments)
leaves exactly the two payments of the second call scheduled. -/
theorem schedule_payments_replace_witness :
    exFinalState.payments.filter (fun p => p.is_scheduled) = [exSched2a, exSched2b] :=
  schedule_payments_replace exState exMidState exFinalState ⟨2024, 3, 1⟩ ⟨2024, 4, 1⟩
    1 1 (some 1) (some 2) [exSched1] [exSched2a, exSched2b]
    (by norm_num [schedule_payments, effective_num_payments, scheduleLoop,
      remaining_principal, Option.some_ne_none, exState, exLoan, exMidState,
      exSched1])
    (by norm_num [schedule_payments, effective_num_payments, scheduleLoop,
      remaining_principal, add_months, daysInMonth, isLeapYear,
      Option.some_ne_none, exMidState, exFinalState, exLoan, exSched1,
      exSched2a, exSched2b])

/-- Witness for C6: paying off the full 100-unit principal flips the loan's
status to `PAID_OFF`. -/
theorem register_payment_auto_paid_off_witness :
    exPaidState.loan.status = LoanStatus.PAID_OFF :=
  (register_payment_auto_paid_off exState exPaidState ⟨2024, 6, 1⟩ 100 0 0
      exPaidPayment
      (by norm_num [register_payment, remaining_principal, update_loan_status,
        exState, exLoan, exPaidState, exPaidPayment])).1
    (by norm_num [remaining_principal, exPaidState, exPaidPayment, exLoan])

/-- Witness for C7: registering a 10-unit payment on the loan with a 40-unit
portion leaves every syndication figure unchanged. -/
theorem register_payment_preserves_syndication_witness :
    total_syndicated exSynAfter = total_syndicated exSynState ∧
    (get_loan_syndication_status exSynAfter).syndication_percentage
      = (get_loan_syndication_status exSynState).syndication_percentage ∧
    (get_loan_syndication_status exSynAfter).portions
      = (get_loan_syndication_status exSynState).portions ∧
    (calculate_loan_metrics exSynAfter).syndication_percentage
      = (calculate_loan_metrics exSynState).syndication_percentage :=
  register_payment_preserves_syndication exSynState exSynAfter ⟨2024, 6, 1⟩ 10 0 0
    exPay10
    (by norm_num [register_payment, remaining_principal, exSynState, exLoan,
      exSynAfter, exPay10])

/-- Witness for C8: from 2024-02-01 to maturity 2025-01-01 at monthly
frequency the derived count covers 11 whole months plus one. -/
theorem schedule_payments_derived_count_witness :
    ∃ s' ps, schedule_payments exState ⟨2024, 2, 1⟩ 1 none = .ok (s', ps) ∧
      (ps.length : Int)
        = (months_to_maturity exState.loan.maturity_date ⟨2024, 2, 1⟩).fdiv
            ((1 : Nat) : Int) + 1 :=
  schedule_payments_derived_count exState ⟨2024, 2, 1⟩ 1 (by decide) (by decide)

/-- Witness for C9: the zero-amount loan reports 0% everywhere, and so does a
portfolio whose only active loan has amount 0. -/
theorem syndication_percentage_zero_guard_witness :
    (get_loan_syndication_status exZeroState).syndication_percentage = 0 ∧
    (∀ e ∈ (get_loan_syndication_status exZeroState).portions, e.percentage = 0) ∧
    (get_portfolio_overview [exZeroState]).syndication_percentage = 0 :=
  syndication_percentage_zero_guard exZeroState [exZeroState] rfl
    (by norm_num [get_portfolio_overview, total_syndicated, exZeroState, exLoan])
